import Mathlib

/-!
Shallow embedding of the kubernetes-iteration-toolkit controllers under
verification:

* the AWS autoscaling-group controller — `Reconcile`, `Finalize`,
  `createAutoScalingGroup`, `getAutoScalingGroup`;
* the NatGateway child-object controller — `NatGateway.Create`.

The cloud provider and the kube API are external collaborators: one
reconcile pass sees a fixed set of responses, modelled by the `Env`
(resp. `NGEnv`) record.  The controller functions are translated
branch-for-branch from the Go source; every mutating provider call the
controller issues during the pass is recorded in an output trace.
-/

namespace Kit

/-- An AWS autoscaling group as returned by `DescribeAutoScalingGroups`:
its `AutoScalingGroupName` and its lifecycle `Status` string.  The Go code
reads the status through `aws.StringValue`, which maps a nil pointer to the
empty string, so `""` stands for an absent status. -/
structure Group where
  name : String
  status : String
deriving DecidableEq, Repr

/-- The spec carried by the `AutoScalingGroup` desired-state object. -/
structure ASGSpec where
  clusterName : String
  instanceCount : Int
deriving DecidableEq, Repr

/-- The `AutoScalingGroup` desired-state object (`asgObj` in the Go code). -/
structure ASGObject where
  name : String
  spec : ASGSpec
deriving DecidableEq, Repr

/-- Result of the `getTargetGroup` helper: success with the target group's
ARN, an error matched by `errors.IsTargetGroupNotExists`, or any other
provider error. -/
inductive TGLookup where
  | ok (arn : String)
  | notExists
  | failed (msg : String)
deriving DecidableEq, Repr

/-- One reconcile/finalize pass's view of the provider: the responses the
AWS API gives to each call the controller can make during the pass.
`Except.error m` models a failed API call; for the mutating calls,
`none` means the call succeeds and `some m` that it fails with message
`m`. -/
structure Env where
  describeGroups : Except String (List Group)
  describeAttached : Except String (List String)
  tgLookup : TGLookup
  subnets : Except String (List String)
  createResult : Option String
  attachResult : Option String
  detachResult : Option String
  deleteResult : Option String
deriving Repr

/-- Mutating AWS calls the autoscaling-group controller can issue, with
the request fields the Go code fills in. -/
inductive Call where
  | createASG (name : String) (desiredCapacity minSize maxSize : Int)
      (launchTemplateName vpcZoneIdentifier clusterName : String)
  | attachTG (asgName : String) (arns : List String)
  | detachTG (asgName : String) (arns : List String)
  | deleteASG (name : String) (forceDelete : Bool)
deriving DecidableEq, Repr

/-- A Go error as the controller returns it: either some wrap (via
`fmt.Errorf("... %w", ...)`) of the `errors.WaitingForSubResources`
sentinel — the case `errors.Is(err, WaitingForSubResources)` matches —
or any other error. -/
inductive KErr where
  | waitingForSubResources (msg : String)
  | fatal (msg : String)
deriving DecidableEq, Repr

/-- Truth value of `errors.Is(err, errors.WaitingForSubResources)`. -/
def KErr.isWaiting : KErr → Bool
  | .waitingForSubResources _ => true
  | .fatal _ => false

/-- Wrapping as `fmt.Errorf(pre ++ "%w", err)`: wrapping prepends to the message and
preserves which sentinel the error matches. -/
def KErr.wrap (pre : String) : KErr → KErr
  | .waitingForSubResources m => .waitingForSubResources (pre ++ m)
  | .fatal m => .fatal (pre ++ m)

/-- The status values (`status.Created`, `status.Terminated`) the two
controller entry points return on success. -/
inductive Status where
  | Created
  | Terminated
deriving DecidableEq, Repr

/-- Outcome of one pass: a normal return with a status, an error return,
or a Go runtime panic (nil-pointer dereference). -/
inductive Outcome where
  | ok (s : Status)
  | err (e : KErr)
  | panicked (msg : String)
deriving DecidableEq, Repr

/-- The `getAutoScalingGroup` helper: describe the group by name; zero matches is
`none`, one match is that group, more than one is an error. -/
def getAutoScalingGroup (env : Env) : Except KErr (Option Group) :=
  match env.describeGroups with
  | .error m => .error (.fatal ("getting autoscaling group, " ++ m))
  | .ok [] => .ok none
  | .ok [g] => .ok (some g)
  | .ok gs => .error (.fatal ("expected asg count one found asgs " ++ toString gs.length))

/-- The `createAutoScalingGroup` helper: resolve the private subnets of the owning
cluster; an empty set yields the `WaitingForSubResources`-wrapping error
and no create call; otherwise issue one `CreateAutoScalingGroup` with
desired capacity from the spec, min 1 / max 4, the launch template named
after the object, and the subnets joined into the VPC zone identifier. -/
def createAutoScalingGroup (env : Env) (asg : ASGObject) : Except KErr Unit × List Call :=
  match env.subnets with
  | .error m => (.error (.fatal m), [])
  | .ok privateSubnets =>
    if privateSubnets.length = 0 then
      (.error (.waitingForSubResources "waiting for private subnets, "), [])
    else
      let call := Call.createASG asg.name asg.spec.instanceCount 1 4 asg.name
        (String.intercalate "," privateSubnets) asg.spec.clusterName
      match env.createResult with
      | some m => (.error (.fatal ("creating autoscaling group, " ++ m)), [call])
      | none => (.ok (), [call])

/-- Translation of `Reconcile`, branch-for-branch from the Go source:

1. `getAutoScalingGroup`; a failure is wrapped and returned.
2. If the group does not exist, run `createAutoScalingGroup`; propagate
   its error.
3. `DescribeLoadBalancerTargetGroups`; a failure is returned.
4. `getTargetGroup`; only the `IsTargetGroupNotExists` case is handled,
   by returning a wrap of `WaitingForSubResources`.  Any other lookup
   failure falls through with a nil `targetGroup`.
5. If nothing is attached, attach the expected target group — with a nil
   `targetGroup` this dereferences `targetGroup.TargetGroupArn` and
   panics.
6. Otherwise compare the first attached ARN with the expected one (again
   dereferencing `targetGroup` first); on mismatch detach that first ARN.
7. Return `status.Created`. -/
def Reconcile (env : Env) (asg : ASGObject) : Outcome × List Call :=
  match getAutoScalingGroup env with
  | .error e => (.err (e.wrap "getting autoscaling groups, "), [])
  | .ok existingASG =>
    let createStep : Except KErr Unit × List Call :=
      match existingASG with
      | none => createAutoScalingGroup env asg
      | some _ => (.ok (), [])
    match createStep with
    | (.error e, calls) => (.err e, calls)
    | (.ok _, calls) =>
      match env.describeAttached with
      | .error m => (.err (.fatal m), calls)
      | .ok attachedARNs =>
        match env.tgLookup with
        | .notExists => (.err (.waitingForSubResources "waiting for target group, "), calls)
        | lookupResult =>
          let targetGroup : Option String :=
            match lookupResult with
            | .ok arn => some arn
            | _ => none
          match attachedARNs with
          | [] =>
            match targetGroup with
            | none => (.panicked "invalid memory address or nil pointer dereference", calls)
            | some arn =>
              let calls2 := calls ++ [Call.attachTG asg.name [arn]]
              match env.attachResult with
              | some m => (.err (.fatal m), calls2)
              | none => (.ok .Created, calls2)
          | first :: _ =>
            match targetGroup with
            | none => (.panicked "invalid memory address or nil pointer dereference", calls)
            | some arn =>
              if first ≠ arn then
                let calls2 := calls ++ [Call.detachTG asg.name [first]]
                match env.detachResult with
                | some m => (.err (.fatal ("detaching old target group, " ++ m)), calls2)
                | none => (.ok .Created, calls2)
              else
                (.ok .Created, calls)

/-- The `Finalize` entry point: describe the group by name; if it exists and its status is
not `"Delete in progress"`, issue one force-delete; in every non-error
case return `status.Terminated`. -/
def Finalize (env : Env) (asg : ASGObject) : Outcome × List Call :=
  match getAutoScalingGroup env with
  | .error e => (.err (e.wrap "getting autoscaling groups, "), [])
  | .ok none => (.ok .Terminated, [])
  | .ok (some existingASG) =>
    if existingASG.status ≠ "Delete in progress" then
      match env.deleteResult with
      | some m => (.err (.fatal m), [Call.deleteASG existingASG.name true])
      | none => (.ok .Terminated, [Call.deleteASG existingASG.name true])
    else
      (.ok .Terminated, [])

def Call.isCreate : Call → Bool
  | .createASG .. => true
  | _ => false

def Call.isAttach : Call → Bool
  | .attachTG .. => true
  | _ => false

def Call.isDetach : Call → Bool
  | .detachTG .. => true
  | _ => false

def Call.isDelete : Call → Bool
  | .deleteASG .. => true
  | _ => false

/-- Number of `CreateAutoScalingGroup` calls in a trace. -/
def countCreate (calls : List Call) : Nat := (calls.filter Call.isCreate).length

/-- Number of `AttachLoadBalancerTargetGroups` calls in a trace. -/
def countAttach (calls : List Call) : Nat := (calls.filter Call.isAttach).length

/-- Number of `DetachLoadBalancerTargetGroups` calls in a trace. -/
def countDetach (calls : List Call) : Nat := (calls.filter Call.isDetach).length

/-- Number of `DeleteAutoScalingGroup` calls in a trace. -/
def countDelete (calls : List Call) : Nat := (calls.filter Call.isDelete).length

/-- Provider model of how one mutating call changes the set of target-group
ARNs attached to the group: attach appends, detach removes, the other calls
leave it unchanged.  Used only to state what is attached at the end of a
pass. -/
def applyCallAttached (att : List String) : Call → List String
  | .attachTG _ arns => att ++ arns
  | .detachTG _ arns => att.filter (fun a => ¬ arns.contains a)
  | _ => att

/-- The attached-ARN list after the provider has executed a trace of calls,
starting from `att`. -/
def attachedAfter (att : List String) (calls : List Call) : List String :=
  calls.foldl applyCallAttached att

def envC1w : Env :=
  ⟨Except.ok [⟨"cl-asg", ""⟩], Except.ok ["arn-1"], TGLookup.ok "arn-1",
    Except.ok [], none, none, none, none⟩

def envC2w : Env :=
  ⟨Except.ok [⟨"cl-asg", ""⟩], Except.ok ["arn-A"], TGLookup.ok "arn-B",
    Except.ok [], none, none, none, none⟩

def envC2w2 : Env :=
  ⟨Except.ok [⟨"cl-asg", ""⟩], Except.ok [], TGLookup.ok "arn-B",
    Except.ok [], none, none, none, none⟩

def envC3x : Env :=
  ⟨Except.ok [⟨"cl-asg", ""⟩], Except.ok ["arn-A"], TGLookup.ok "arn-B",
    Except.ok [], none, none, none, none⟩

def envC4a : Env :=
  ⟨Except.ok [], Except.ok [], TGLookup.notExists, Except.ok [], none, none, none, none⟩

def envC4b : Env :=
  ⟨Except.ok [], Except.ok [], TGLookup.ok "arn-B", Except.ok ["subnet-1", "subnet-2"],
    none, none, none, none⟩

def envC5w : Env :=
  ⟨Except.ok [⟨"cl-asg", ""⟩], Except.ok [], TGLookup.notExists,
    Except.ok [], none, none, none, none⟩

def envC6a : Env :=
  ⟨Except.ok [⟨"cl-asg", ""⟩], Except.ok ["arn-old"],
    TGLookup.failed "Throttling: rate exceeded", Except.ok [], none, none, none, none⟩

def envC6b : Env :=
  ⟨Except.ok [⟨"cl-asg", ""⟩], Except.ok [],
    TGLookup.failed "Throttling: rate exceeded", Except.ok [], none, none, none, none⟩

def envC7a : Env :=
  ⟨Except.ok [], Except.ok [], TGLookup.notExists, Except.ok [], none, none, none, none⟩

def envC7b : Env :=
  ⟨Except.ok [⟨"cl-asg", "Delete in progress"⟩], Except.ok [], TGLookup.notExists,
    Except.ok [], none, none, none, none⟩

def envC7c : Env :=
  ⟨Except.ok [⟨"cl-asg", ""⟩], Except.ok [], TGLookup.notExists,
    Except.ok [], none, none, none, none⟩

def envC8x : Env :=
  ⟨Except.ok [⟨"cl-asg", "Delete in progress"⟩], Except.ok [], TGLookup.notExists,
    Except.ok [], none, none, none, none⟩

def envC8y : Env :=
  ⟨Except.ok [⟨"cl-asg", ""⟩], Except.ok [], TGLookup.notExists,
    Except.ok [], none, none, none, none⟩

/-- Result of the kube client `Get` for the NatGateway child object:
found, a not-found error (`errors.IsNotFound`), or any other error. -/
inductive KubeGet where
  | found
  | notFound (msg : String)
  | otherErr (msg : String)
deriving DecidableEq, Repr

/-- One `NatGateway.Create` pass's view of the kube API: the `Get`
response and, when a create is issued, its result (`none` = success). -/
structure NGEnv where
  getResult : KubeGet
  createResult : Option String
deriving DecidableEq, Repr

/-- The owning `ControlPlane` object's identifying metadata. -/
structure ControlPlane where
  nsName : String
  name : String
deriving DecidableEq, Repr

/-- The type `v1alpha1.NatGatewaySpec` is declared outside the reviewed sources;
the controller only ever uses its zero value `NatGatewaySpec{}`, modelled
here as the unique value of a fieldless structure. -/
structure NatGatewaySpec where
deriving DecidableEq, Repr

/-- Mutating kube call the NatGateway controller can issue: create the
child object at the control plane's namespace/name with the given spec. -/
inductive NGCall where
  | createChild (nsName objName : String) (spec : NatGatewaySpec)
deriving DecidableEq, Repr

namespace NatGateway

/-- The lower-case `create` helper: issue the kube create of the child
object with the zero-value spec, wrapping a failure. -/
def create (env : NGEnv) (cp : ControlPlane) : Option String × List NGCall :=
  let calls := [NGCall.createChild cp.nsName cp.name ⟨⟩]
  match env.createResult with
  | some m => (some ("creating internet gateway kube object, " ++ m), calls)
  | none => (none, calls)

/-- The `NatGateway.Create` entry point: `Get` the child by the control plane's
namespace/name; a not-found error leads to `create` (whose failure is
wrapped once more); any other `Get` error is wrapped and returned; if the
child is found the pass is a no-op success (no spec comparison). -/
def Create (env : NGEnv) (cp : ControlPlane) : Option String × List NGCall :=
  match env.getResult with
  | .notFound _ =>
    match create env cp with
    | (some m, calls) => (some ("creating internet gateway kube object, " ++ m), calls)
    | (none, calls) => (none, calls)
  | .otherErr m => (some ("getting internet gateway object, " ++ m), [])
  | .found => (none, [])

end NatGateway

def envC10w : Env :=
  ⟨Except.ok [⟨"cl-asg", ""⟩], Except.ok ["arn-A", "arn-C", "arn-D"],
    TGLookup.ok "arn-B", Except.ok [], none, none, none, none⟩

/-- Claim C1 — Idempotence of `Reconcile`: on a pass whose provider view is
already converged (the group exists, something is attached, and the first
attached target-group ARN equals the expected target group's ARN), the
pass returns status `Created` and issues no mutating call at all — in
particular no `CreateAutoScalingGroup`, `AttachLoadBalancerTargetGroups`
or `DetachLoadBalancerTargetGroups`.  `Reconcile` is a function of the
provider view, so when the external state does not change between two
successive calls, the second call sees the same `Env` and this theorem
applies to it verbatim: both calls return `Created` with an empty trace. -/
theorem C1_reconcile_idempotent_when_converged (env : Env) (asg : ASGObject)
    (g : Group) (arn : String) (rest : List String)
    (hgroups : env.describeGroups = Except.ok [g])
    (hattached : env.describeAttached = Except.ok (arn :: rest))
    (hlookup : env.tgLookup = TGLookup.ok arn) :
    Reconcile env asg = (Outcome.ok Status.Created, []) := by
  simp [Reconcile, getAutoScalingGroup, hgroups, hattached, hlookup]

theorem C1_witness :
    Reconcile envC1w ⟨"cl-asg", ⟨"cl", 2⟩⟩ = (Outcome.ok Status.Created, []) :=
  C1_reconcile_idempotent_when_converged envC1w ⟨"cl-asg", ⟨"cl", 2⟩⟩
    ⟨"cl-asg", ""⟩ "arn-1" [] rfl rfl rfl

/-- Claim C2 — Drift correction is two-phase: when the group exists, the
first attached ARN is `A`, and the expected target group resolves to a
different ARN `B`, the pass's trace is exactly one
`DetachLoadBalancerTargetGroups` call for `A` — so no attach of `B` in the
same pass; a following pass in which `A` is detached (nothing attached
any more) has a trace of exactly one `AttachLoadBalancerTargetGroups`
call for `B`. -/
theorem C2_drift_correction_two_phase (env env2 : Env) (asg : ASGObject)
    (g g2 : Group) (A B : String) (rest : List String)
    (hgroups : env.describeGroups = Except.ok [g])
    (hattached : env.describeAttached = Except.ok (A :: rest))
    (hlookup : env.tgLookup = TGLookup.ok B)
    (hne : A ≠ B)
    (hgroups2 : env2.describeGroups = Except.ok [g2])
    (hattached2 : env2.describeAttached = Except.ok [])
    (hlookup2 : env2.tgLookup = TGLookup.ok B) :
    (Reconcile env asg).2 = [Call.detachTG asg.name [A]] ∧
    (Reconcile env2 asg).2 = [Call.attachTG asg.name [B]] := by
  constructor
  · simp [Reconcile, getAutoScalingGroup, hgroups, hattached, hlookup, hne]
    cases env.detachResult <;> simp
  · simp [Reconcile, getAutoScalingGroup, hgroups2, hattached2, hlookup2]
    cases env2.attachResult <;> simp

theorem C2_witness :
    (Reconcile envC2w ⟨"cl-asg", ⟨"cl", 2⟩⟩).2 = [Call.detachTG "cl-asg" ["arn-A"]] ∧
    (Reconcile envC2w2 ⟨"cl-asg", ⟨"cl", 2⟩⟩).2 = [Call.attachTG "cl-asg" ["arn-B"]] :=
  C2_drift_correction_two_phase envC2w envC2w2 ⟨"cl-asg", ⟨"cl", 2⟩⟩
    ⟨"cl-asg", ""⟩ ⟨"cl-asg", ""⟩ "arn-A" "arn-B" [] rfl rfl rfl
    (by decide) rfl rfl rfl

/-- Helper: the only status `Reconcile` ever returns on a non-error,
non-panic pass is `Created`. -/
theorem reconcile_fst_ok (e : Env) (o : ASGObject) (s : Status)
    (h : (Reconcile e o).1 = Outcome.ok s) : s = Status.Created := by
  unfold Reconcile createAutoScalingGroup getAutoScalingGroup at h
  repeat' split at h
  all_goals (try (rw [apply_ite Prod.fst] at h))
  all_goals (try (split at h))
  all_goals simp_all

/-- Claim C3, counterexample — the claim says `Reconcile` reports
`Created` only when the attached target-group ARN equals the expected one
at the end of the pass, and in particular that a pass that only detaches
a stale ARN does not report `Created`.  On the concrete pass below the
group exists, `"arn-A"` is attached while the expected ARN is `"arn-B"`,
the pass's only call is the detach of `"arn-A"`, and at the end of the
pass nothing is attached (so the attachment does not equal the expected
`["arn-B"]`) — yet `Reconcile` returns `Created`. -/
theorem C3_counterexample_created_after_detach_only :
    Reconcile envC3x ⟨"cl-asg", ⟨"cl", 2⟩⟩ =
      (Outcome.ok Status.Created, [Call.detachTG "cl-asg" ["arn-A"]]) ∧
    attachedAfter ["arn-A"] (Reconcile envC3x ⟨"cl-asg", ⟨"cl", 2⟩⟩).2 = [] ∧
    ([] : List String) ≠ ["arn-B"] := by
  refine ⟨by decide, by decide, by decide⟩

/-- Claim C3, amended — `Reconcile` returns `Created` at the end of every
pass that completes without error or panic, whether or not the attachment
matches expectation at that point: in particular a pass that only
detaches a stale ARN (group exists, first attached ARN differs from the
expected one, detach succeeds) returns `Created` with a trace of exactly
that one detach. -/
theorem C3_amended_created_on_every_successful_pass (env : Env) (asg : ASGObject)
    (g : Group) (A B : String) (rest : List String)
    (hgroups : env.describeGroups = Except.ok [g])
    (hattached : env.describeAttached = Except.ok (A :: rest))
    (hlookup : env.tgLookup = TGLookup.ok B)
    (hne : A ≠ B)
    (hdetach : env.detachResult = none) :
    Reconcile env asg = (Outcome.ok Status.Created, [Call.detachTG asg.name [A]]) ∧
    (∀ e o s, (Reconcile e o).1 = Outcome.ok s → s = Status.Created) := by
  refine ⟨?_, fun e o s h => reconcile_fst_ok e o s h⟩
  simp [Reconcile, getAutoScalingGroup, hgroups, hattached, hlookup, hne, hdetach]

/-- Claim C4 — Dependency wait on subnets: when the external group does
not exist and the private-subnet query succeeds, an empty subnet set
makes `Reconcile` return an error wrapping the `WaitingForSubResources`
sentinel (a waiting error, not a fatal one) with no call issued at all —
in particular no `CreateAutoScalingGroup` — while a non-empty subnet set
makes the pass issue exactly one `CreateAutoScalingGroup` call. -/
theorem C4_subnet_dependency_wait (env : Env) (asg : ASGObject)
    (sns : List String)
    (hgroups : env.describeGroups = Except.ok [])
    (hsubnets : env.subnets = Except.ok sns) :
    (sns = [] →
      Reconcile env asg =
        (Outcome.err (KErr.waitingForSubResources "waiting for private subnets, "), []) ∧
      KErr.isWaiting (KErr.waitingForSubResources "waiting for private subnets, ") = true) ∧
    (sns ≠ [] → countCreate (Reconcile env asg).2 = 1) := by
  constructor
  · rintro rfl
    simp [Reconcile, getAutoScalingGroup, createAutoScalingGroup, hgroups, hsubnets, KErr.isWaiting]
  · intro hne
    have hlen : ¬ sns.length = 0 := by simpa [List.length_eq_zero] using hne
    simp only [Reconcile, getAutoScalingGroup, createAutoScalingGroup, hgroups, hsubnets]
    rw [if_neg hlen]
    cases env.createResult with
    | some m => simp [countCreate, Call.isCreate]
    | none =>
      cases env.describeAttached with
      | error m => simp [countCreate, Call.isCreate]
      | ok atts =>
        cases htl : env.tgLookup with
        | notExists => simp [countCreate, Call.isCreate]
        | failed m =>
          cases atts <;> simp [countCreate, Call.isCreate]
        | ok arn =>
          cases atts with
          | nil =>
            cases env.attachResult <;> simp [countCreate, Call.isCreate, Call.isAttach]
          | cons a tl =>
            by_cases hfirst : a = arn
            · simp [hfirst, countCreate, Call.isCreate]
            · cases env.detachResult <;>
                simp [if_neg hfirst, countCreate, Call.isCreate, Call.isDetach]

theorem C3_amended_witness :
    Reconcile envC3x ⟨"cl-asg", ⟨"cl", 2⟩⟩ =
      (Outcome.ok Status.Created, [Call.detachTG "cl-asg" ["arn-A"]]) :=
  (C3_amended_created_on_every_successful_pass envC3x ⟨"cl-asg", ⟨"cl", 2⟩⟩
    ⟨"cl-asg", ""⟩ "arn-A" "arn-B" [] rfl rfl rfl (by decide) rfl).1

theorem C4_witness :
    (Reconcile envC4a ⟨"cl-asg", ⟨"cl", 2⟩⟩ =
        (Outcome.err (KErr.waitingForSubResources "waiting for private subnets, "), []) ∧
      KErr.isWaiting (KErr.waitingForSubResources "waiting for private subnets, ") = true) ∧
    countCreate (Reconcile envC4b ⟨"cl-asg", ⟨"cl", 2⟩⟩).2 = 1 :=
  ⟨(C4_subnet_dependency_wait envC4a ⟨"cl-asg", ⟨"cl", 2⟩⟩ [] rfl rfl).1 rfl,
   (C4_subnet_dependency_wait envC4b ⟨"cl-asg", ⟨"cl", 2⟩⟩ ["subnet-1", "subnet-2"]
      rfl rfl).2 (by decide)⟩

/-- Claim C5 — Dependency wait on the target group: on a pass that reaches
the target-group lookup (the describe calls succeed, and either the group
already exists or its creation succeeds from a non-empty subnet set) and
the lookup fails with a target-group-not-exists error, `Reconcile`
returns an error wrapping the `WaitingForSubResources` sentinel — so any
error the pass returns is of the waiting kind, distinguishable from fatal
errors — and the trace contains no `AttachLoadBalancerTargetGroups`
call. -/
theorem C5_target_group_dependency_wait (env : Env) (asg : ASGObject)
    (hready : (∃ g, env.describeGroups = Except.ok [g]) ∨
      (env.describeGroups = Except.ok [] ∧
        (∃ sns, env.subnets = Except.ok sns ∧ sns ≠ []) ∧ env.createResult = none))
    (hatt : ∃ atts, env.describeAttached = Except.ok atts)
    (hlookup : env.tgLookup = TGLookup.notExists) :
    (Reconcile env asg).1 =
      Outcome.err (KErr.waitingForSubResources "waiting for target group, ") ∧
    (∀ e, (Reconcile env asg).1 = Outcome.err e → e.isWaiting = true) ∧
    countAttach (Reconcile env asg).2 = 0 := by
  obtain ⟨atts, hatt⟩ := hatt
  have hmain : Reconcile env asg =
      ((Outcome.err (KErr.waitingForSubResources "waiting for target group, ")),
        (Reconcile env asg).2) ∧ countAttach (Reconcile env asg).2 = 0 := by
    rcases hready with ⟨g, hg⟩ | ⟨hg, ⟨sns, hsns, hne⟩, hcr⟩
    · simp [Reconcile, getAutoScalingGroup, hg, hatt, hlookup, countAttach]
    · have hlen : ¬ sns.length = 0 := by simpa [List.length_eq_zero] using hne
      simp [Reconcile, getAutoScalingGroup, createAutoScalingGroup, hg, hsns,
        hlen, hcr, hatt, hlookup, countAttach, Call.isAttach]
  refine ⟨?_, ?_, hmain.2⟩
  · rw [hmain.1]
  · intro e he
    rw [hmain.1] at he
    simp only [Outcome.err.injEq] at he
    subst he
    rfl

theorem C5_witness :
    (Reconcile envC5w ⟨"cl-asg", ⟨"cl", 2⟩⟩).1 =
      Outcome.err (KErr.waitingForSubResources "waiting for target group, ") ∧
    countAttach (Reconcile envC5w ⟨"cl-asg", ⟨"cl", 2⟩⟩).2 = 0 :=
  ⟨(C5_target_group_dependency_wait envC5w ⟨"cl-asg", ⟨"cl", 2⟩⟩
      (Or.inl ⟨⟨"cl-asg", ""⟩, rfl⟩) ⟨[], rfl⟩ rfl).1,
   (C5_target_group_dependency_wait envC5w ⟨"cl-asg", ⟨"cl", 2⟩⟩
      (Or.inl ⟨⟨"cl-asg", ""⟩, rfl⟩) ⟨[], rfl⟩ rfl).2.2⟩

/-- Claim C6 — The code does not do what the claim (and the spec) say: when
`getTargetGroup` fails with an error that is *not* a
target-group-not-exists error, the `err != nil && IsTargetGroupNotExists`
guard skips the return, the error is swallowed, and the pass continues
with a nil `targetGroup`, which both following branches dereference.  At
the two concrete inputs below (stale attachment present / nothing
attached) the pass ends in a nil-pointer panic instead of returning the
lookup error. -/
theorem C6_lookup_error_swallowed_nil_dereference :
    Reconcile envC6a ⟨"cl-asg", ⟨"cl", 2⟩⟩ =
      (Outcome.panicked "invalid memory address or nil pointer dereference", []) ∧
    Reconcile envC6b ⟨"cl-asg", ⟨"cl", 2⟩⟩ =
      (Outcome.panicked "invalid memory address or nil pointer dereference", []) := by
  refine ⟨by decide, by decide⟩

/-- Claim C7 — `Finalize` is idempotent and safe on absence: a pass that
finds no group returns `Terminated` with no delete call; a pass that
finds the group mid-deletion (`"Delete in progress"`) issues no delete
call; a pass that finds the group not mid-deletion issues exactly one
`DeleteAutoScalingGroup` with `ForceDelete` set and returns `Terminated`;
hence two successive passes — the second of which observes the group
absent or mid-deletion — issue at most one delete call in total. -/
theorem C7_finalize_idempotent_and_safe_on_absence (env env2 : Env)
    (asg : ASGObject) (g g2 : Group) :
    (env.describeGroups = Except.ok [] →
      Finalize env asg = (Outcome.ok Status.Terminated, [])) ∧
    (env.describeGroups = Except.ok [g] → g.status = "Delete in progress" →
      countDelete (Finalize env asg).2 = 0) ∧
    (env.describeGroups = Except.ok [g] → g.status ≠ "Delete in progress" →
      env.deleteResult = none →
      Finalize env asg = (Outcome.ok Status.Terminated, [Call.deleteASG g.name true])) ∧
    (env.describeGroups = Except.ok [g] → g.status ≠ "Delete in progress" →
      (env2.describeGroups = Except.ok [] ∨
        (env2.describeGroups = Except.ok [g2] ∧ g2.status = "Delete in progress")) →
      countDelete ((Finalize env asg).2 ++ (Finalize env2 asg).2) ≤ 1) := by
  refine ⟨?_, ?_, ?_, ?_⟩
  · intro hg
    simp [Finalize, getAutoScalingGroup, hg]
  · intro hg hs
    simp [Finalize, getAutoScalingGroup, hg, hs, countDelete]
  · intro hg hs hdel
    simp [Finalize, getAutoScalingGroup, hg, hs, hdel]
  · intro hg hs h2
    have ht1 : (Finalize env asg).2 = [Call.deleteASG g.name true] := by
      cases hdel : env.deleteResult <;>
        simp [Finalize, getAutoScalingGroup, hg, hs, hdel]
    have ht2 : (Finalize env2 asg).2 = [] := by
      rcases h2 with hg2 | ⟨hg2, hs2⟩
      · simp [Finalize, getAutoScalingGroup, hg2]
      · simp [Finalize, getAutoScalingGroup, hg2, hs2]
    rw [ht1, ht2]
    simp [countDelete, Call.isDelete]

theorem C7_witness :
    Finalize envC7a ⟨"cl-asg", ⟨"cl", 2⟩⟩ = (Outcome.ok Status.Terminated, []) ∧
    countDelete (Finalize envC7b ⟨"cl-asg", ⟨"cl", 2⟩⟩).2 = 0 ∧
    Finalize envC7c ⟨"cl-asg", ⟨"cl", 2⟩⟩ =
      (Outcome.ok Status.Terminated, [Call.deleteASG "cl-asg" true]) ∧
    countDelete ((Finalize envC7c ⟨"cl-asg", ⟨"cl", 2⟩⟩).2 ++
      (Finalize envC7b ⟨"cl-asg", ⟨"cl", 2⟩⟩).2) ≤ 1 :=
  ⟨(C7_finalize_idempotent_and_safe_on_absence envC7a envC7b ⟨"cl-asg", ⟨"cl", 2⟩⟩
      ⟨"cl-asg", ""⟩ ⟨"cl-asg", "Delete in progress"⟩).1 rfl,
   (C7_finalize_idempotent_and_safe_on_absence envC7b envC7b ⟨"cl-asg", ⟨"cl", 2⟩⟩
      ⟨"cl-asg", "Delete in progress"⟩ ⟨"cl-asg", "Delete in progress"⟩).2.1 rfl rfl,
   (C7_finalize_idempotent_and_safe_on_absence envC7c envC7b ⟨"cl-asg", ⟨"cl", 2⟩⟩
      ⟨"cl-asg", ""⟩ ⟨"cl-asg", "Delete in progress"⟩).2.2.1 rfl (by decide) rfl,
   (C7_finalize_idempotent_and_safe_on_absence envC7c envC7b ⟨"cl-asg", ⟨"cl", 2⟩⟩
      ⟨"cl-asg", ""⟩ ⟨"cl-asg", "Delete in progress"⟩).2.2.2 rfl (by decide)
      (Or.inr ⟨rfl, rfl⟩)⟩

/-- Claim C8, counterexample — the claim says a pass in which the group
still exists does not report `Terminated`.  On the first pass below the
describe call finds the group mid-deletion, on the second it finds the
group alive and the pass issues a fresh force-delete; both passes return
`Terminated`. -/
theorem C8_counterexample_terminated_while_group_exists :
    (Finalize envC8x ⟨"cl-asg", ⟨"cl", 2⟩⟩).1 = Outcome.ok Status.Terminated ∧
    envC8x.describeGroups = Except.ok [⟨"cl-asg", "Delete in progress"⟩] ∧
    (Finalize envC8y ⟨"cl-asg", ⟨"cl", 2⟩⟩).1 = Outcome.ok Status.Terminated ∧
    envC8y.describeGroups = Except.ok [⟨"cl-asg", ""⟩] :=
  ⟨rfl, rfl, rfl, rfl⟩

/-- Claim C8, amended — `Finalize` returns `Terminated` at the end of every
pass that completes without error, whether the group was found absent,
found mid-deletion, or just force-deleted; `Terminated` does not certify
that the external group is absent at the time of the pass. -/
theorem C8_amended_terminated_on_every_successful_pass (env : Env)
    (asg : ASGObject) (gs : List Group)
    (hgroups : env.describeGroups = Except.ok gs)
    (hsingle : gs = [] ∨ ∃ g, gs = [g])
    (hdelete : env.deleteResult = none) :
    (Finalize env asg).1 = Outcome.ok Status.Terminated := by
  obtain rfl | ⟨g, rfl⟩ := hsingle
  · simp [Finalize, getAutoScalingGroup, hgroups]
  · by_cases hs : g.status = "Delete in progress" <;>
      simp [Finalize, getAutoScalingGroup, hgroups, hs, hdelete]

theorem C8_amended_witness :
    (Finalize envC8x ⟨"cl-asg", ⟨"cl", 2⟩⟩).1 = Outcome.ok Status.Terminated :=
  C8_amended_terminated_on_every_successful_pass envC8x ⟨"cl-asg", ⟨"cl", 2⟩⟩
    [⟨"cl-asg", "Delete in progress"⟩] rfl (Or.inr ⟨⟨"cl-asg", "Delete in progress"⟩, rfl⟩) rfl

/-- Claim C9 — NatGateway child-object projection: a `Get` not-found error
leads to success with exactly one child create carrying the zero-value
default `NatGatewaySpec` at the control plane's namespace/name (when that
create succeeds); a successful `Get` is a no-op success with zero
creates; any other `Get` error is returned wrapped, with zero creates. -/
theorem C9_natgateway_existence_projection (env : NGEnv) (cp : ControlPlane) :
    (∀ m, env.getResult = KubeGet.notFound m → env.createResult = none →
      NatGateway.Create env cp = (none, [NGCall.createChild cp.nsName cp.name ⟨⟩])) ∧
    (env.getResult = KubeGet.found → NatGateway.Create env cp = (none, [])) ∧
    (∀ m, env.getResult = KubeGet.otherErr m →
      NatGateway.Create env cp =
        (some ("getting internet gateway object, " ++ m), [])) := by
  refine ⟨?_, ?_, ?_⟩
  · intro m hget hcr
    simp [NatGateway.Create, NatGateway.create, hget, hcr]
  · intro hget
    simp [NatGateway.Create, hget]
  · intro m hget
    simp [NatGateway.Create, hget]

theorem C9_witness :
    NatGateway.Create ⟨KubeGet.notFound "not found", none⟩ ⟨"ns-a", "cp-a"⟩ =
      (none, [NGCall.createChild "ns-a" "cp-a" ⟨⟩]) ∧
    NatGateway.Create ⟨KubeGet.found, none⟩ ⟨"ns-a", "cp-a"⟩ = (none, []) ∧
    NatGateway.Create ⟨KubeGet.otherErr "conn refused", none⟩ ⟨"ns-a", "cp-a"⟩ =
      (some ("getting internet gateway object, " ++ "conn refused"), []) :=
  ⟨(C9_natgateway_existence_projection ⟨KubeGet.notFound "not found", none⟩
      ⟨"ns-a", "cp-a"⟩).1 "not found" rfl rfl,
   (C9_natgateway_existence_projection ⟨KubeGet.found, none⟩ ⟨"ns-a", "cp-a"⟩).2.1 rfl,
   (C9_natgateway_existence_projection ⟨KubeGet.otherErr "conn refused", none⟩
      ⟨"ns-a", "cp-a"⟩).2.2 "conn refused" rfl⟩

/-- Claim C10 — Only the first attached target group is considered: with
the group existing and the lookup resolving to `arn`, if the first
attached ARN `a` differs from `arn` the pass's detach calls are exactly
one detach of `[a]` and no attach is issued; and the whole pass — outcome
and trace alike — is unchanged when the attached ARNs beyond the first
are replaced by any other list, so the later attached target groups are
never compared or detached. -/
theorem C10_only_first_attached_considered (env : Env) (asg : ASGObject)
    (g : Group) (a arn : String) (rest rest2 : List String)
    (hgroups : env.describeGroups = Except.ok [g])
    (hattached : env.describeAttached = Except.ok (a :: rest))
    (hlookup : env.tgLookup = TGLookup.ok arn) :
    (a ≠ arn →
      (Reconcile env asg).2.filter Call.isDetach = [Call.detachTG asg.name [a]] ∧
      countAttach (Reconcile env asg).2 = 0) ∧
    Reconcile { env with describeAttached := Except.ok (a :: rest2) } asg =
      Reconcile env asg := by
  constructor
  · intro hne
    cases hdet : env.detachResult <;>
      simp [Reconcile, getAutoScalingGroup, hgroups, hattached, hlookup, hne, hdet,
        countAttach, Call.isDetach, Call.isAttach]
  · simp [Reconcile, getAutoScalingGroup, hgroups, hattached, hlookup]

theorem C10_witness :
    ((Reconcile envC10w ⟨"cl-asg", ⟨"cl", 2⟩⟩).2.filter Call.isDetach =
        [Call.detachTG "cl-asg" ["arn-A"]] ∧
      countAttach (Reconcile envC10w ⟨"cl-asg", ⟨"cl", 2⟩⟩).2 = 0) ∧
    Reconcile { envC10w with describeAttached := Except.ok ["arn-A"] }
        ⟨"cl-asg", ⟨"cl", 2⟩⟩ =
      Reconcile envC10w ⟨"cl-asg", ⟨"cl", 2⟩⟩ :=
  ⟨(C10_only_first_attached_considered envC10w ⟨"cl-asg", ⟨"cl", 2⟩⟩
      ⟨"cl-asg", ""⟩ "arn-A" "arn-B" ["arn-C", "arn-D"] [] rfl rfl rfl).1 (by decide),
   (C10_only_first_attached_considered envC10w ⟨"cl-asg", ⟨"cl", 2⟩⟩
      ⟨"cl-asg", ""⟩ "arn-A" "arn-B" ["arn-C", "arn-D"] [] rfl rfl rfl).2⟩

end Kit
